import Mathlib

/-!
Shallow embedding of the RabbitMQ POC client library
(`src/python_version/rabbitmq_client.py`, `producer.py`, `consumer.py`,
`config.py`) and proofs about its behaviour.

Modelling conventions:
* Python `None` becomes `Option.none`; Python truthiness of a string is
  "non-empty", of an object "not None".
* pika exceptions become the inductive `PyError`; a Python function that can
  raise returns `Except PyError _`.
* Broker-side effects of channel methods are recorded as a `ChannelEvent`
  trace; broker replies (queue names, faults) are passed in as parameters,
  since the broker itself is outside the program.
* `pika.BlockingConnection` / `channel()` hand out fresh handles; freshness is
  modelled with a `nextId` counter carried in the client state.
-/

namespace POCRabbitMQ

/-! ### config.py -/

namespace config

def HOST : String := "localhost"

def PORT : Nat := 5672

def USERNAME : String := "guest"

def PASSWORD : String := "guest"

def DIRECT_EXCHANGE : String := "poc.direct.exchange"

def FANOUT_EXCHANGE : String := "poc.fanout.exchange"

def TOPIC_EXCHANGE : String := "poc.topic.exchange"

def QUEUE_1 : String := "poc.queue.one"

def QUEUE_2 : String := "poc.queue.two"

def QUEUE_3 : String := "poc.queue.three"

def ROUTING_KEY_1 : String := "poc.key.one"

def ROUTING_KEY_2 : String := "poc.key.two"

def TOPIC_KEY_PATTERN : String := "poc.topic.#"

end config

/-! ### pika-level data -/

/-- `pika.ConnectionParameters` (host/port; credentials elided — the client
code only passes the object through). -/
structure ConnParams where
  host : String
  port : Nat
deriving DecidableEq, Repr

def config.connParams : ConnParams := { host := config.HOST, port := config.PORT }

/-- The Python exceptions the client code can see.  The pika class hierarchy
matters for `isinstance` checks: `ChannelClosedByBroker` is a subclass of
`AMQPChannelError`, and `ConnectionWrongStateError` of `AMQPConnectionError`. -/
inductive PyError where
  | AMQPChannelError
  | ChannelClosedByBroker
  | AMQPConnectionError
  | ConnectionWrongStateError
  | ValueError (msg : String)
  | AttributeError (attr : String)
  | UnicodeDecodeError
  | otherError
deriving DecidableEq, Repr

/-- `isinstance(e, pika.exceptions.AMQPChannelError)`. -/
def PyError.isAMQPChannelError : PyError → Bool
  | .AMQPChannelError => true
  | .ChannelClosedByBroker => true
  | _ => false

/-- `isinstance(e, pika.exceptions.AMQPConnectionError)`. -/
def PyError.isAMQPConnectionError : PyError → Bool
  | .AMQPConnectionError => true
  | .ConnectionWrongStateError => true
  | _ => false

/-- A `pika.BlockingConnection` handle: identity plus open/closed flag. -/
structure Connection where
  id : Nat
  is_open : Bool
deriving DecidableEq, Repr

/-- A `pika.channel.Channel` handle: identity plus open/closed flag. -/
structure Channel where
  id : Nat
  is_open : Bool
deriving DecidableEq, Repr

/-- `connection.close()`: closes an open connection; pika raises
`ConnectionWrongStateError` when the connection is already closed. -/
def Connection.pyClose (c : Connection) : Except PyError Connection :=
  if c.is_open then .ok { c with is_open := false } else .error .ConnectionWrongStateError

/-- Header maps (`dict[str, scalar]`); scalar values are modelled as strings. -/
abbrev Headers := List (String × String)

/-- `pika.BasicProperties(delivery_mode=..., headers=...)`. -/
structure BasicProperties where
  delivery_mode : Option Nat
  headers : Option Headers
deriving DecidableEq, Repr

/-- One call made on a pika channel, recorded with the arguments the client
code passes (defaults filled in from pika's signatures). -/
inductive ChannelEvent where
  | basicQos (prefetch_count : Nat)
  | basicConsume (queue : String) (consumer_tag : String) (auto_ack : Bool)
  | basicCancel (consumer_tag : String)
  | basicAck (delivery_tag : Nat) (multiple : Bool)
  | basicNack (delivery_tag : Nat) (multiple : Bool) (requeue : Bool)
  | basicPublish (exchange : String) (routing_key : String) (body : List Nat)
      (properties : BasicProperties)
  | queueDeclare (queue : String) (passive : Bool) (durable : Bool) (exclusive : Bool)
      (auto_delete : Bool) (arguments : Headers)
  | queueBind (queue : String) (exchange : String) (routing_key : String)
  | exchangeDeclare (exchange : String) (exchange_type : String) (durable : Bool)
deriving DecidableEq, Repr

/-! ### rabbitmq_client.py — RabbitMQClient -/

/-- The mutable attributes of a `RabbitMQClient` (base class of both
`MessageProducer` and `MessageConsumer`): `self.connection`,
`self.connection_params`, `self.channel`, plus the freshness counter. -/
structure ClientState where
  connection : Option Connection
  connection_params : Option ConnParams
  channel : Option Channel
  nextId : Nat
deriving DecidableEq, Repr

/-- `RabbitMQClient._initialize_channel`:
if no connection is held and parameters are available, create a connection;
then, if a connection is held, derive a fresh channel from it
(`connection.channel()` fails when the connection is closed);
otherwise raise `ValueError`. -/
def initialize_channel (s : ClientState) : Except PyError ClientState :=
  let s1 :=
    if s.connection.isNone && s.connection_params.isSome then
      { s with connection := some { id := s.nextId, is_open := true }, nextId := s.nextId + 1 }
    else s
  match s1.connection with
  | some c =>
      if c.is_open then
        .ok { s1 with channel := some { id := s1.nextId, is_open := true },
                      nextId := s1.nextId + 1 }
      else .error .ConnectionWrongStateError
  | none => .error (.ValueError "Either connection or connection_params must be provided")

/-- `RabbitMQClient.__init__(connection_params, connection)`: stores both
arguments, sets `self.channel = None`, then runs `_initialize_channel`. -/
def RabbitMQClient.init (connection_params : Option ConnParams)
    (connection : Option Connection) (nextId : Nat) : Except PyError ClientState :=
  initialize_channel
    { connection := connection, connection_params := connection_params,
      channel := none, nextId := nextId }

/-- `MessageProducer.__init__`: forwards to the base initializer. -/
def MessageProducer.mkClient (connection_params : Option ConnParams)
    (connection : Option Connection) (nextId : Nat) : Except PyError ClientState :=
  RabbitMQClient.init connection_params connection nextId

/-- `RabbitMQClient.channel_operation`: run `op` on `self.channel`; on an
`AMQPChannelError` or `AMQPConnectionError` call `_initialize_channel` to
recover, then re-raise the original error; any other error is re-raised
without recovery.  `op` returns its result together with the channel calls it
made. -/
def channel_operation {α : Type} (s : ClientState)
    (op : Option Channel → (Except PyError α) × List ChannelEvent) :
    (Except PyError α) × ClientState × List ChannelEvent :=
  match op s.channel with
  | (.ok a, evs) => (.ok a, s, evs)
  | (.error e, evs) =>
      if e.isAMQPChannelError || e.isAMQPConnectionError then
        match initialize_channel s with
        | .ok s' => (.error e, s', evs)
        | .error e' => (.error e', s, evs)
      else (.error e, s, evs)

/-- `RabbitMQClient.close`:
`try: if self.channel and self.channel.is_open: self.channel.close()` with any
error swallowed, then, only when `self.connection_params and self.connection`,
`try: self.connection.close()` with any error swallowed. -/
def RabbitMQClient.close (s : ClientState) : ClientState :=
  let s1 :=
    match s.channel with
    | some ch => if ch.is_open then { s with channel := some { ch with is_open := false } } else s
    | none => s
  match s1.connection_params, s1.connection with
  | some _, some c =>
      match c.pyClose with
      | .ok c' => { s1 with connection := some c' }
      | .error _ => s1
  | _, _ => s1

/-- `RabbitMQClient.declare_queue(queue_name, durable=True, exclusive=False,
auto_delete=False)`: under `channel_operation`, issue `queue_declare` and
return `result.method.queue` — the effective queue name reported by the
broker, passed in here as `reply` since the broker is external. -/
def RabbitMQClient.declare_queue (s : ClientState) (queue_name : String)
    (durable : Bool) (exclusive : Bool) (auto_delete : Bool)
    (reply : Except PyError String) :
    (Except PyError String) × ClientState × List ChannelEvent :=
  channel_operation s (fun _ =>
    (reply, [ChannelEvent.queueDeclare queue_name false durable exclusive auto_delete []]))

/-! ### producer.py — MessageProducer -/

/-- UTF-8 encoding of one Unicode code point (`str.encode('utf-8')`,
per character). -/
def utf8EncodeChar (c : Nat) : List Nat :=
  if c < 0x80 then [c]
  else if c < 0x800 then [0xC0 + c / 64, 0x80 + c % 64]
  else if c < 0x10000 then [0xE0 + c / 4096, 0x80 + c / 64 % 64, 0x80 + c % 64]
  else [0xF0 + c / 262144, 0x80 + c / 4096 % 64, 0x80 + c / 64 % 64, 0x80 + c % 64]

/-- `message.encode('utf-8')`: the UTF-8 byte sequence of a string. -/
def utf8Encode (s : String) : List Nat :=
  (s.data.map (fun c => utf8EncodeChar c.toNat)).flatten

/-- The method names defined on a `MessageProducer` object: its own `def`s in
`producer.py` plus the inherited ones from `RabbitMQClient` in
`rabbitmq_client.py`.  Python attribute lookup (`self.<name>`) succeeds
exactly for these names. -/
def MessageProducer.methodNames : List String :=
  ["__init__", "declare_exchange", "declare_queue", "bind_queue", "send_message",
   "close", "run", "_initialize_channel", "channel_operation"]

/-- `self.<attr>` on a `MessageProducer`: `AttributeError` when the name is
not defined on the class. -/
def pyGetMethod (methods : List String) (attr : String) : Except PyError Unit :=
  if attr ∈ methods then .ok () else .error (.AttributeError attr)

/-- `MessageProducer.declare_queue(queue_name)` with the broker's
queue-existence answer passed in as `queueExists`:

* passive path: `queue_declare(queue=queue_name, passive=True)` succeeds when
  the queue exists; the function returns `None` (modelled as `.ok none`);
* absent path: the broker rejects the passive declare with
  `ChannelClosedByBroker` (closing the channel); the `except` handler calls
  `self._create_channel()` — an attribute lookup, resolved through
  `pyGetMethod` — and, had it succeeded, would run a second
  `channel_operation` issuing the full declare
  `queue_declare(queue=queue_name, durable=True,
  arguments={'x-dead-letter-exchange': ''})`.  An `AttributeError` from the
  lookup reaches the surrounding `channel_operation` as a non-AMQP error and
  is re-raised without recovery, then re-raised again by the outer
  `except Exception`. -/
def MessageProducer.declare_queue (s : ClientState) (queue_name : String)
    (queueExists : Bool) :
    (Except PyError (Option String)) × ClientState × List ChannelEvent :=
  let passiveEvent := ChannelEvent.queueDeclare queue_name true false false false []
  if queueExists then
    (.ok none, s, [passiveEvent])
  else
    let s1 := { s with channel := s.channel.map (fun ch => { ch with is_open := false }) }
    match pyGetMethod MessageProducer.methodNames "_create_channel" with
    | .error e => (.error e, s1, [passiveEvent])
    | .ok _ =>
        -- unreachable continuation, kept as the source writes it
        (.ok none, s1,
         [passiveEvent,
          ChannelEvent.queueDeclare queue_name false true false false
            [("x-dead-letter-exchange", "")]])

/-- `MessageProducer.send_message(exchange, routing_key, message, headers)`:
under `channel_operation`, build
`BasicProperties(delivery_mode=2, headers=headers)` and
`basic_publish(exchange, routing_key, body=message.encode('utf-8'),
properties=...)`.  Whether the publish call raises is the broker's side,
passed in as `publishResult`; the outer `except Exception` re-raises. -/
def MessageProducer.send_message (s : ClientState) (exchange : String)
    (routing_key : String) (message : String) (headers : Option Headers)
    (publishResult : Except PyError Unit) :
    (Except PyError Unit) × ClientState × List ChannelEvent :=
  channel_operation s (fun _ =>
    (publishResult,
     [ChannelEvent.basicPublish exchange routing_key (utf8Encode message)
        { delivery_mode := some 2, headers := headers }]))

/-- `MessageProducer.close` (overrides the base `close`):
`if self.channel and self.channel.is_open: self.channel.close()` — the
connection is never touched. -/
def MessageProducer.close (s : ClientState) : ClientState :=
  match s.channel with
  | some ch => if ch.is_open then { s with channel := some { ch with is_open := false } } else s
  | none => s

/-! ### consumer.py — MessageConsumer -/

/-- Association-list lookup, embedding `d[k]` / `k in d` on a `dict`. -/
def lookupKey (m : List (String × String)) (k : String) : Option String :=
  match m with
  | [] => none
  | p :: rest => if p.1 = k then some p.2 else lookupKey rest k

/-- `k in d` on a `dict`. -/
def containsKey (m : List (String × String)) (k : String) : Bool :=
  (lookupKey m k).isSome

/-- `d[k] = v` on a `dict`: replaces the value in place when the key is
present, otherwise appends (Python dicts preserve insertion order). -/
def insertKey (m : List (String × String)) (k v : String) : List (String × String) :=
  if containsKey m k then m.map (fun p => if p.1 = k then (p.1, v) else p)
  else m ++ [(k, v)]

/-- `del d[k]` on a `dict` (keys are unique, so filtering removes exactly the
one entry). -/
def dictPop (m : List (String × String)) (k : String) : List (String × String) :=
  m.filter (fun p => p.1 ≠ k)

/-- The attributes of a `MessageConsumer`: the base-class state plus
`self.active_consumers`, the dict mapping a consumer tag to the value returned
by `basic_consume` (which is the consumer tag itself). -/
structure ConsumerState where
  client : ClientState
  active_consumers : List (String × String)
deriving DecidableEq, Repr

/-- `MessageConsumer.__init__`: base initializer, then
`self.active_consumers = {}` (empty dict). -/
def MessageConsumer.mkClient (connection_params : Option ConnParams)
    (connection : Option Connection) (nextId : Nat) : Except PyError ConsumerState :=
  (RabbitMQClient.init connection_params connection nextId).map
    (fun s => { client := s, active_consumers := [] })

/-- The fields of `method` handed to the per-message callback by pika. -/
structure DeliveryMethod where
  delivery_tag : Nat
  exchange : String
  routing_key : String
deriving DecidableEq, Repr

/-- The per-message `callback` defined inside
`MessageConsumer.start_consuming`.  Its `try` block decodes the body, prints
the message and redisplays the menu — the fallible part, abstracted as the
`processing` outcome — and acknowledges on success with
`ch.basic_ack(delivery_tag=method.delivery_tag)` (pika default
`multiple=False`); the `except Exception` handler issues
`ch.basic_nack(delivery_tag=method.delivery_tag, requeue=True)` (pika default
`multiple=False`) and returns normally, so no exception escapes the
callback. -/
def consumer_callback (method : DeliveryMethod) (processing : Except PyError Unit) :
    List ChannelEvent :=
  match processing with
  | .ok _ => [ChannelEvent.basicAck method.delivery_tag false]
  | .error _ => [ChannelEvent.basicNack method.delivery_tag false true]

/-- `MessageConsumer.start_consuming(queue_name, consumer_tag)`: under
`channel_operation`, `basic_qos(prefetch_count=1)`, then
`basic_consume(queue=queue_name, on_message_callback=callback,
consumer_tag=consumer_tag, auto_ack=False)`, whose return value (the consumer
tag) is stored in `self.active_consumers[consumer_tag]`. -/
def MessageConsumer.start_consuming (cs : ConsumerState) (queue_name : String)
    (consumer_tag : String) : ConsumerState × List ChannelEvent :=
  ({ cs with active_consumers := insertKey cs.active_consumers consumer_tag consumer_tag },
   [ChannelEvent.basicQos 1, ChannelEvent.basicConsume queue_name consumer_tag false])

/-- `MessageConsumer.stop_consuming(consumer_tag=None)`: under
`channel_operation`,
`if consumer_tag and consumer_tag in self.active_consumers:` cancel and delete
that one entry (note Python truthiness: the empty string fails the first
conjunct); `elif consumer_tag is None:` cancel and delete every entry;
otherwise do nothing. -/
def MessageConsumer.stop_consuming (cs : ConsumerState) (consumer_tag : Option String) :
    ConsumerState × List ChannelEvent :=
  match consumer_tag with
  | some t =>
      if t ≠ "" ∧ containsKey cs.active_consumers t then
        ({ cs with active_consumers := dictPop cs.active_consumers t },
         [ChannelEvent.basicCancel t])
      else (cs, [])
  | none =>
      ({ cs with active_consumers := [] },
       cs.active_consumers.map (fun p => ChannelEvent.basicCancel p.1))

/-! ### Concrete fixtures used by the witnesses and counterexamples -/

/-- The state of a client constructed from connection parameters only
(`RabbitMQClient.init (some config.connParams) none 0` evaluates to exactly
this state: a self-created open connection and a fresh open channel). -/
def sFromParams : ClientState :=
  { connection := some { id := 0, is_open := true },
    connection_params := some config.connParams,
    channel := some { id := 1, is_open := true },
    nextId := 2 }

/-- A channel operation that raises `AMQPConnectionError` before making any
broker call. -/
def opConnFault : Option Channel → (Except PyError Unit) × List ChannelEvent :=
  fun _ => (.error .AMQPConnectionError, [])

/-- A consumer with two active registrations. -/
def consumersTwo : ConsumerState :=
  { client := sFromParams, active_consumers := [("tagA", "tagA"), ("tagB", "tagB")] }

/-- A consumer whose active-registration map holds the empty-string tag
(reachable via `start_consuming q ""`). -/
def consumersEmptyTag : ConsumerState :=
  { client := sFromParams, active_consumers := [("", "")] }

/-! ### Helper lemmas -/

theorem initialize_channel_of_open (s : ClientState) (c : Connection)
    (hc : s.connection = some c) (hopen : c.is_open = true) :
    initialize_channel s =
      .ok { s with channel := some { id := s.nextId, is_open := true },
                   nextId := s.nextId + 1 } := by
  simp [initialize_channel, hc, hopen]

theorem lookupKey_append (m l : List (String × String)) (k : String) :
    lookupKey (m ++ l) k =
      match lookupKey m k with
      | some v => some v
      | none => lookupKey l k := by
  induction m with
  | nil => rfl
  | cons p rest ih => by_cases h : p.1 = k <;> simp [lookupKey, h, ih]

theorem lookupKey_replace (m : List (String × String)) (k v : String)
    (h : containsKey m k = true) :
    lookupKey (m.map (fun p => if p.1 = k then (p.1, v) else p)) k = some v := by
  induction m with
  | nil => simp [containsKey, lookupKey] at h
  | cons p rest ih =>
      by_cases hp : p.1 = k
      · simp [lookupKey, hp]
      · have hr : containsKey rest k = true := by
          simpa [containsKey, lookupKey, hp] using h
        simp [lookupKey, hp, ih hr]

theorem lookupKey_insertKey (m : List (String × String)) (k v : String) :
    lookupKey (insertKey m k v) k = some v := by
  unfold insertKey
  by_cases h : containsKey m k
  · simp [h, lookupKey_replace m k v h]
  · have hnone : lookupKey m k = none := by
      unfold containsKey at h
      cases hl : lookupKey m k with
      | none => rfl
      | some v' => rw [hl] at h; simp at h
    simp [h, lookupKey_append, hnone, lookupKey]

theorem mem_keys_dictPop (m : List (String × String)) (t k : String) :
    k ∈ (dictPop m t).map Prod.fst ↔ k ∈ m.map Prod.fst ∧ k ≠ t := by
  simp only [dictPop, List.mem_map, List.mem_filter]
  constructor
  · rintro ⟨p, ⟨hm, hne⟩, rfl⟩
    exact ⟨⟨p, hm, rfl⟩, by simpa using hne⟩
  · rintro ⟨⟨p, hm, rfl⟩, hne⟩
    exact ⟨p, ⟨hm, by simpa using hne⟩, rfl⟩

/-! ### Claim theorems -/

/-- C1: the spec says that when the broker reports the queue absent,
`MessageProducer.declare_queue` recovers the channel and performs a full
durable declare carrying `x-dead-letter-exchange = ""`, completing without
raising.  The code instead calls the nonexistent method `_create_channel`
(the recovery method is named `_initialize_channel`), so on the absent path it
raises `AttributeError` and never issues the full declare; on the
queue-exists path, only the passive declare is issued, as claimed. -/
theorem claim_C1_producer_declare_queue_absent_path_raises :
    (MessageProducer.declare_queue sFromParams config.QUEUE_1 false).1 =
      .error (.AttributeError "_create_channel") ∧
    (MessageProducer.declare_queue sFromParams config.QUEUE_1 false).2.2 =
      [ChannelEvent.queueDeclare config.QUEUE_1 true false false false []] ∧
    (MessageProducer.declare_queue sFromParams config.QUEUE_1 true).2.2 =
      [ChannelEvent.queueDeclare config.QUEUE_1 true false false false []] :=
  ⟨rfl, rfl, rfl⟩

/-- C2 (counterexample): a producer that created its own connection from
connection parameters (`RabbitMQClient.init (some ...) none 0 = .ok
sFromParams`) leaves that connection open after `MessageProducer.close`,
although the claim says `close()` closes a connection the instance created
itself. -/
theorem claim_C2_counterexample_producer_close_keeps_connection :
    RabbitMQClient.init (some config.connParams) none 0 = .ok sFromParams ∧
    sFromParams.connection = some { id := 0, is_open := true } ∧
    (MessageProducer.close sFromParams).connection = some { id := 0, is_open := true } :=
  ⟨rfl, rfl, rfl⟩

/-- C2 (amended): for every client state, the base `close` closes the held
channel and closes the connection exactly when connection parameters were
supplied and a connection is held (so a connection adopted alongside supplied
parameters is also closed, and a connection held without parameters is never
closed); the producer's `close` override closes only the channel and never
touches the connection. -/
theorem claim_C2_close_channel_and_connection_policy (s : ClientState) :
    (RabbitMQClient.close s).channel =
      s.channel.map (fun ch => { ch with is_open := false }) ∧
    (RabbitMQClient.close s).connection =
      (if s.connection_params.isSome then
         s.connection.map (fun c => { c with is_open := false })
       else s.connection) ∧
    (RabbitMQClient.close s).connection_params = s.connection_params ∧
    (MessageProducer.close s).channel =
      s.channel.map (fun ch => { ch with is_open := false }) ∧
    (MessageProducer.close s).connection = s.connection ∧
    (MessageProducer.close s).connection_params = s.connection_params := by
  obtain ⟨cn, ps, ch, n⟩ := s
  rcases cn with _ | ⟨cid, copen⟩ <;> rcases ps with _ | p <;>
    rcases ch with _ | ⟨hid, hopen⟩ <;> (try cases copen) <;> (try cases hopen) <;>
      simp [RabbitMQClient.close, MessageProducer.close, Connection.pyClose]

/-- C3: the per-message callback acknowledges exactly the delivered message's
delivery tag (`multiple=False`) when the fallible message processing
completes, and negative-acknowledges that tag with `requeue=True`
(`multiple=False`) when it raises; the exception is swallowed (the callback's
result type is a plain event list, not an `Except`). -/
theorem claim_C3_callback_ack_nack_policy (m : DeliveryMethod)
    (p : Except PyError Unit) :
    (p = .ok () → consumer_callback m p = [ChannelEvent.basicAck m.delivery_tag false]) ∧
    (∀ e, p = .error e →
      consumer_callback m p = [ChannelEvent.basicNack m.delivery_tag false true]) := by
  constructor
  · rintro rfl; rfl
  · rintro e rfl; rfl

/-- C3 (witness): concrete runs of the callback on delivery tag 7: the
successful run acks tag 7 non-cumulatively; the failing run (a body that is
not valid UTF-8) nacks tag 7 with requeue. -/
theorem claim_C3_callback_witness :
    consumer_callback ⟨7, config.DIRECT_EXCHANGE, config.ROUTING_KEY_1⟩ (.ok ()) =
      [ChannelEvent.basicAck 7 false] ∧
    consumer_callback ⟨7, config.DIRECT_EXCHANGE, config.ROUTING_KEY_1⟩
        (.error .UnicodeDecodeError) =
      [ChannelEvent.basicNack 7 false true] :=
  ⟨(claim_C3_callback_ack_nack_policy ⟨7, config.DIRECT_EXCHANGE, config.ROUTING_KEY_1⟩
      (.ok ())).1 rfl,
   (claim_C3_callback_ack_nack_policy ⟨7, config.DIRECT_EXCHANGE, config.ROUTING_KEY_1⟩
      (.error .UnicodeDecodeError)).2 .UnicodeDecodeError rfl⟩

/-- C7: `start_consuming` issues `basic_qos(prefetch_count=1)` strictly before
`basic_consume`, registers with `auto_ack=False`, and records the registration
in `active_consumers` under the given tag. -/
theorem claim_C7_start_consuming_qos_then_consume (cs : ConsumerState)
    (q tag : String) :
    (MessageConsumer.start_consuming cs q tag).2 =
      [ChannelEvent.basicQos 1, ChannelEvent.basicConsume q tag false] ∧
    lookupKey (MessageConsumer.start_consuming cs q tag).1.active_consumers tag =
      some tag := by
  refine ⟨rfl, ?_⟩
  simpa [MessageConsumer.start_consuming] using
    lookupKey_insertKey cs.active_consumers tag tag

/-- C9: both the base `close` and the producer's `close` override are
idempotent: a second call changes nothing (all exceptions inside `close` are
swallowed, so no error is raised either — `close` is total). -/
theorem claim_C9_close_idempotent (s : ClientState) :
    RabbitMQClient.close (RabbitMQClient.close s) = RabbitMQClient.close s ∧
    MessageProducer.close (MessageProducer.close s) = MessageProducer.close s := by
  obtain ⟨cn, ps, ch, n⟩ := s
  rcases cn with _ | ⟨cid, copen⟩ <;> rcases ps with _ | p <;>
    rcases ch with _ | ⟨hid, hopen⟩ <;> (try cases copen) <;> (try cases hopen) <;>
      simp [RabbitMQClient.close, MessageProducer.close, Connection.pyClose]

/-- C10: constructing a client (base initializer, producer, or consumer) with
neither a connection nor connection parameters raises
`ValueError`; every successful construction yields a state holding an open
connection and an open channel. -/
theorem claim_C10_init_requires_connection_source :
    (∀ n, RabbitMQClient.init none none n =
      .error (.ValueError "Either connection or connection_params must be provided")) ∧
    (∀ n, MessageProducer.mkClient none none n =
      .error (.ValueError "Either connection or connection_params must be provided")) ∧
    (∀ n, MessageConsumer.mkClient none none n =
      .error (.ValueError "Either connection or connection_params must be provided")) ∧
    (∀ ps cn n s, RabbitMQClient.init ps cn n = .ok s →
      (∃ ch, s.channel = some ch ∧ ch.is_open = true) ∧
      (∃ c, s.connection = some c ∧ c.is_open = true)) ∧
    (∀ ps cn n cs, MessageConsumer.mkClient ps cn n = .ok cs →
      (∃ ch, cs.client.channel = some ch ∧ ch.is_open = true) ∧
      (∃ c, cs.client.connection = some c ∧ c.is_open = true)) := by
  have hbase : ∀ (ps : Option ConnParams) (cn : Option Connection) (n : Nat)
      (s : ClientState), RabbitMQClient.init ps cn n = .ok s →
      (∃ ch, s.channel = some ch ∧ ch.is_open = true) ∧
      (∃ c, s.connection = some c ∧ c.is_open = true) := by
    intro ps cn n s h
    rcases cn with _ | ⟨cid, copen⟩
    · rcases ps with _ | p
      · simp [RabbitMQClient.init, initialize_channel] at h
      · simp [RabbitMQClient.init, initialize_channel] at h
        subst h
        exact ⟨⟨_, rfl, rfl⟩, ⟨_, rfl, rfl⟩⟩
    · cases copen
      · rcases ps with _ | p <;> simp [RabbitMQClient.init, initialize_channel] at h
      · rcases ps with _ | p <;> simp [RabbitMQClient.init, initialize_channel] at h <;>
          (subst h; exact ⟨⟨_, rfl, rfl⟩, ⟨_, rfl, rfl⟩⟩)
  refine ⟨fun n => rfl, fun n => rfl, fun n => rfl, hbase, ?_⟩
  intro ps cn n cs h
  rcases hm : RabbitMQClient.init ps cn n with e | s
  · simp [MessageConsumer.mkClient, hm, Except.map] at h
  · simp [MessageConsumer.mkClient, hm, Except.map] at h
    subst h
    exact hbase ps cn n s hm

/-- C10 (witness): constructing from connection parameters succeeds and the
resulting state holds an open connection and an open channel. -/
theorem claim_C10_init_witness :
    RabbitMQClient.init (some config.connParams) none 0 = .ok sFromParams ∧
    ((∃ ch, sFromParams.channel = some ch ∧ ch.is_open = true) ∧
     (∃ c, sFromParams.connection = some c ∧ c.is_open = true)) :=
  ⟨rfl, claim_C10_init_requires_connection_source.2.2.2.1
      (some config.connParams) none 0 sFromParams rfl⟩

/-- C4 (counterexample): a client that owns connection parameters and holds
connection 0 hits a connection-level fault under `channel_operation`; the
wrapper re-raises the fault and hands out a fresh channel, but the connection
is left exactly as it was (still connection 0) — it is not re-created, because
`_initialize_channel` only creates a connection when none is held at all. -/
theorem claim_C4_counterexample_connection_not_recreated :
    sFromParams.connection_params = some config.connParams ∧
    sFromParams.connection = some { id := 0, is_open := true } ∧
    (channel_operation sFromParams opConnFault).2.1.connection =
      some { id := 0, is_open := true } ∧
    (channel_operation sFromParams opConnFault).1 = .error PyError.AMQPConnectionError :=
  ⟨rfl, rfl, rfl, rfl⟩

/-- C4 (amended): when an operation run under `channel_operation` raises a
channel-level or connection-level fault and the client holds an open
connection, the wrapper re-creates the channel from that same connection (the
connection itself is reused, not re-created; a connection would be created
only if none were held and parameters were available) and then re-raises the
original error to the caller. -/
theorem claim_C4_channel_operation_recovers_and_reraises {α : Type} (s : ClientState)
    (op : Option Channel → (Except PyError α) × List ChannelEvent) (e : PyError)
    (evs : List ChannelEvent) (c : Connection)
    (hop : op s.channel = (.error e, evs))
    (hfault : e.isAMQPChannelError = true ∨ e.isAMQPConnectionError = true)
    (hc : s.connection = some c) (hopen : c.is_open = true) :
    channel_operation s op =
      (.error e,
       { s with channel := some { id := s.nextId, is_open := true },
                nextId := s.nextId + 1 },
       evs) := by
  have hb : (e.isAMQPChannelError || e.isAMQPConnectionError) = true := by
    rcases hfault with h | h <;> simp [h]
  simp [channel_operation, hop, hb, initialize_channel_of_open s c hc hopen]

/-- C4 (witness): the recovery theorem applied to the concrete faulting
operation `opConnFault` on `sFromParams`: the original error comes back and
the channel is replaced by fresh channel 2. -/
theorem claim_C4_channel_operation_witness :
    channel_operation sFromParams opConnFault =
      (.error PyError.AMQPConnectionError,
       { sFromParams with channel := some { id := 2, is_open := true }, nextId := 3 },
       []) := by
  have h := claim_C4_channel_operation_recovers_and_reraises sFromParams opConnFault
    PyError.AMQPConnectionError [] { id := 0, is_open := true } rfl (Or.inr rfl) rfl rfl
  exact h

/-- C5: `send_message` publishes exactly one envelope whose body is the UTF-8
encoding of the message, whose delivery mode is 2 (persistent), and whose
header map is the caller-supplied map unchanged; on success the client state
is untouched (no buffering or message log), and any publish failure is
re-raised to the caller with no second publish attempt. -/
theorem claim_C5_send_message_envelope (s : ClientState)
    (exchange routing_key message : String) (headers : Option Headers)
    (publishResult : Except PyError Unit) (c : Connection)
    (hc : s.connection = some c) (hopen : c.is_open = true) :
    (MessageProducer.send_message s exchange routing_key message headers publishResult).2.2 =
      [ChannelEvent.basicPublish exchange routing_key (utf8Encode message)
         { delivery_mode := some 2, headers := headers }] ∧
    (publishResult = .ok () →
      MessageProducer.send_message s exchange routing_key message headers publishResult =
        (.ok (), s,
         [ChannelEvent.basicPublish exchange routing_key (utf8Encode message)
            { delivery_mode := some 2, headers := headers }])) ∧
    (∀ e, publishResult = .error e →
      (MessageProducer.send_message s exchange routing_key message headers publishResult).1 =
        .error e) := by
  rcases publishResult with e | u
  · have hred : MessageProducer.send_message s exchange routing_key message headers (.error e) =
        (.error e,
         (if (e.isAMQPChannelError || e.isAMQPConnectionError) = true then
            { s with channel := some { id := s.nextId, is_open := true },
                     nextId := s.nextId + 1 }
          else s),
         [ChannelEvent.basicPublish exchange routing_key (utf8Encode message)
            { delivery_mode := some 2, headers := headers }]) := by
      by_cases hb : (e.isAMQPChannelError || e.isAMQPConnectionError) = true
      · simp [MessageProducer.send_message, channel_operation, hb,
              initialize_channel_of_open s c hc hopen]
      · simp [MessageProducer.send_message, channel_operation, hb]
    refine ⟨?_, ?_, ?_⟩
    · rw [hred]
    · intro hok
      exact Except.noConfusion hok
    · intro e' he
      injection he with he'
      subst he'
      rw [hred]
  · cases u
    exact ⟨rfl, fun _ => rfl, fun e h => Except.noConfusion h⟩

/-- C5 (witness): a concrete publish of "hello" with one header on a client
holding open connection 0: the envelope is persistent, the body is the UTF-8
bytes of "hello", the header map is passed through verbatim, and the state is
unchanged. -/
theorem claim_C5_send_message_witness :
    MessageProducer.send_message sFromParams config.DIRECT_EXCHANGE config.ROUTING_KEY_1
        "hello" (some [("trade_id", "42")]) (.ok ()) =
      (.ok (), sFromParams,
       [ChannelEvent.basicPublish config.DIRECT_EXCHANGE config.ROUTING_KEY_1
          (utf8Encode "hello")
          { delivery_mode := some 2, headers := some [("trade_id", "42")] }]) :=
  (claim_C5_send_message_envelope sFromParams config.DIRECT_EXCHANGE config.ROUTING_KEY_1
      "hello" (some [("trade_id", "42")]) (.ok ()) { id := 0, is_open := true }
      rfl rfl).2.1 rfl

/-- C6 (counterexample): the empty-string tag can be an active registration
(via `start_consuming q ""`), yet `stop_consuming (some "")` cancels nothing
and removes nothing, because Python's `if consumer_tag and ...` treats the
empty string as falsy — the claim says a present tag is cancelled and
removed. -/
theorem claim_C6_counterexample_empty_tag_present_not_cancelled :
    containsKey consumersEmptyTag.active_consumers "" = true ∧
    MessageConsumer.stop_consuming consumersEmptyTag (some "") =
      (consumersEmptyTag, []) := by
  constructor
  · rfl
  · simp [MessageConsumer.stop_consuming]

/-- C6 (amended): `stop_consuming` with a NONEMPTY tag present in the map
cancels exactly that registration and removes it; with no tag it cancels every
registration and empties the map; with an absent tag or the empty-string tag
it changes nothing and raises no error. -/
theorem claim_C6_stop_consuming_policy (cs : ConsumerState) (t : String) :
    (t ≠ "" → containsKey cs.active_consumers t = true →
      (∀ k, k ∈ (MessageConsumer.stop_consuming cs (some t)).1.active_consumers.map Prod.fst ↔
        (k ∈ cs.active_consumers.map Prod.fst ∧ k ≠ t)) ∧
      (MessageConsumer.stop_consuming cs (some t)).2 = [ChannelEvent.basicCancel t]) ∧
    ((MessageConsumer.stop_consuming cs none).1.active_consumers = [] ∧
     (MessageConsumer.stop_consuming cs none).2 =
       cs.active_consumers.map (fun p => ChannelEvent.basicCancel p.1)) ∧
    (containsKey cs.active_consumers t = false ∨ t = "" →
      MessageConsumer.stop_consuming cs (some t) = (cs, [])) := by
  refine ⟨?_, ⟨rfl, rfl⟩, ?_⟩
  · intro ht hcont
    constructor
    · intro k
      simpa [MessageConsumer.stop_consuming, ht, hcont] using
        mem_keys_dictPop cs.active_consumers t k
    · simp [MessageConsumer.stop_consuming, ht, hcont]
  · rintro (hf | rfl)
    · simp [MessageConsumer.stop_consuming, hf]
    · simp [MessageConsumer.stop_consuming]

/-- C6 (witness): on a consumer with registrations "tagA" and "tagB",
stopping "tagA" leaves exactly "tagB" ("tagB" stays in, "tagA" is out) and
issues exactly one cancel for "tagA". -/
theorem claim_C6_stop_consuming_witness :
    ("tagB" ∈ (MessageConsumer.stop_consuming consumersTwo
        (some "tagA")).1.active_consumers.map Prod.fst ↔
      ("tagB" ∈ consumersTwo.active_consumers.map Prod.fst ∧ "tagB" ≠ "tagA")) ∧
    (MessageConsumer.stop_consuming consumersTwo (some "tagA")).2 =
      [ChannelEvent.basicCancel "tagA"] :=
  ⟨((claim_C6_stop_consuming_policy consumersTwo "tagA").1
      (by decide) (by decide)).1 "tagB",
   ((claim_C6_stop_consuming_policy consumersTwo "tagA").1
      (by decide) (by decide)).2⟩

/-- C8 (counterexample): the producer's `declare_queue` entry point, on a
queue the broker reports present (`poc.queue.one`), completes but returns
`None` — not the effective queue name — contradicting "this holds for every
public declare-queue entry point of the client". -/
theorem claim_C8_counterexample_producer_declare_queue_returns_none :
    (MessageProducer.declare_queue sFromParams config.QUEUE_1 true).1 = .ok none ∧
    (MessageProducer.declare_queue sFromParams config.QUEUE_1 true).1 ≠
      .ok (some config.QUEUE_1) := by
  refine ⟨rfl, ?_⟩
  intro h
  simp [MessageProducer.declare_queue] at h

/-- C8 (amended): the base client's `declare_queue` returns the effective
queue name reported by the broker (which may differ from the requested name,
e.g. for an empty requested name) and leaves the state unchanged; the
producer's `declare_queue` override returns no queue name. -/
theorem claim_C8_declare_queue_returns_broker_name (s : ClientState)
    (queue_name : String) (durable exclusive auto_delete : Bool)
    (reply : Except PyError String) (name : String) (hr : reply = .ok name) :
    (RabbitMQClient.declare_queue s queue_name durable exclusive auto_delete reply).1 =
      .ok name ∧
    (RabbitMQClient.declare_queue s queue_name durable exclusive auto_delete reply).2.1 =
      s ∧
    (MessageProducer.declare_queue s queue_name true).1 = .ok none := by
  subst hr
  exact ⟨rfl, rfl, rfl⟩

/-- C8 (witness): declaring with the empty queue name and a broker-generated
reply returns the broker's generated name. -/
theorem claim_C8_declare_queue_witness :
    (RabbitMQClient.declare_queue sFromParams "" true false false
        (.ok "amq.gen-ab12")).1 = .ok "amq.gen-ab12" ∧
    (RabbitMQClient.declare_queue sFromParams "" true false false
        (.ok "amq.gen-ab12")).2.1 = sFromParams ∧
    (MessageProducer.declare_queue sFromParams "" true).1 = .ok none :=
  claim_C8_declare_queue_returns_broker_name sFromParams "" true false false
    (.ok "amq.gen-ab12") "amq.gen-ab12" rfl

end POCRabbitMQ
